import Mathlib

/-!
  Verification of the client-side session manager in
  `src/frontend/src/contexts/AuthContext.jsx`.

  The component is modelled as pure functions from the client state
  (the durable `localStorage` slot holding the credential token, plus the
  volatile `user` cell) and the outcomes of the HTTP exchanges it performs,
  to the new client state, the string the operation returns, and an ordered
  trace of observable side effects (storage writes and deletes, outbound
  fetches, navigations, `console.error` emissions).  Each HTTP exchange is
  an oracle value of type `Fetch`: either a transport-level rejection
  (the `fetch` promise rejects, landing in a `catch` block) or a response
  carrying the `res.ok` flag and a model of what `res.json()` yields.
-/

namespace AuthContext

/-- An authenticated user record.  The server-defined shape is opaque to the
component; it is modelled as a record with an identifying field.  A present
record is a JS object and hence truthy, so `data.user || null` keeps it. -/
structure User where
  id : Nat
deriving DecidableEq, Repr

/-- The parsed body of a `/user/me` response on the `res.ok` path: the code
reads only `data.user` (line 47 and line 106).  `user := none` models the
`user` field being absent (JS `undefined`, falsy, so `data.user || null`
yields `null`). -/
structure MeBody where
  user : Option User
deriving DecidableEq, Repr

/-- Outcome of `res.json()` on the login response (line 90): the promise can
reject (`fail`), yield a falsy value such as `null` (`nullv`, caught by the
`!data` test on line 91), or yield an object with optional `token` and
`message` fields.  On the non-ok path (line 87) the same value is produced
by `res.json().catch(() => ({}))`, with `fail` standing for the `{}`
fallback. -/
inductive LoginParse where
  | fail
  | nullv
  | obj (token : Option String) (message : Option String)
deriving DecidableEq, Repr

/-- One HTTP exchange as observed by the client: `err` is a transport-level
failure (the `fetch` promise rejects and control lands in a `catch`);
`resp ok body` is a completed response with its `res.ok` flag and a model
`body` of what `res.json()` yields. -/
inductive Fetch (β : Type) where
  | err
  | resp (ok : Bool) (body : β)
deriving DecidableEq, Repr

/-- For `/user/me` exchanges the body model is `Option MeBody`: `none` means
`res.json()` rejects, or parses to `null` so that reading `data.user`
throws — in every use site both land in the same `catch` block. -/
abbrev MeFetch := Fetch (Option MeBody)

/-- The client state: the durable storage slot `localStorage['token']` and
the volatile `user` cell published to UI consumers (Session State). -/
structure ClientState where
  token : Option String
  user : Option User
deriving DecidableEq, Repr

/-- Observable side effects, in the order the code performs them. -/
inductive Eff where
  | setItem (key value : String)
  | removeItem (key : String)
  | fetchGet (path : String)
  | fetchPost (path : String)
  | nav (dest : String)
  | logErr (msg : String)
deriving DecidableEq, Repr

/-- Result of one session-manager operation: the final client state, the
string returned to the caller (`""` for the void operations), and the
ordered trace of observable side effects. -/
structure OpResult where
  state : ClientState
  ret : String
  effs : List Eff
deriving DecidableEq, Repr

/-- JS `v || d` for an optional string `v`: an absent or empty (falsy)
string falls through to the default. -/
def jsOr (v : Option String) (d : String) : String :=
  match v with
  | none => d
  | some s => if s = "" then d else s

/-- JS truthiness test `data.token` on an optional string: an absent or
empty token is falsy (line 91, `!data.token`). -/
def truthyToken : Option String → Option String
  | none => none
  | some s => if s = "" then none else some s

/-- The `message` field the error paths read via `data?.message`
(lines 88 and 140): absent unless the parse produced an object carrying
one. -/
def messageOf : LoginParse → Option String
  | .obj _ m => m
  | _ => none

/-- The user value produced by the secondary `/user/me` fetch inside
`login` (lines 96 to 112): on `profileRes.ok` with a parsed body, the
body's `user` field (`profileData.user || null`, line 106); on a non-ok
status, a parse failure, or a transport error, `null` (lines 108 and 111). -/
def meUser : MeFetch → Option User
  | .resp true (some d) => d.user
  | _ => none

/-- The mount-time effect of `AuthProvider` (lines 22 to 55).  With no
stored token it publishes `null` and stops (lines 24 to 27).  With a token
it issues the `/user/me` fetch (lines 31 to 36); on a non-ok status it logs,
removes the token and publishes `null` (lines 38 to 44); on an ok status it
publishes `data.user || null` (lines 46 and 47); a transport failure or a
throwing `res.json()` lands in the catch (lines 48 to 51), which logs and
publishes `null` without touching the token. -/
def initSession : ClientState → MeFetch → OpResult
  | ⟨none, _⟩, _ =>
      { state := ⟨none, none⟩, ret := "", effs := [] }
  | ⟨some tok, _⟩, .err =>
      { state := ⟨some tok, none⟩, ret := "",
        effs := [.fetchGet "/user/me", .logErr "Error fetching user data:"] }
  | ⟨some tok, _⟩, .resp true (some d) =>
      { state := ⟨some tok, d.user⟩, ret := "",
        effs := [.fetchGet "/user/me"] }
  | ⟨some tok, _⟩, .resp true none =>
      { state := ⟨some tok, none⟩, ret := "",
        effs := [.fetchGet "/user/me", .logErr "Error fetching user data:"] }
  | ⟨some _, _⟩, .resp false _ =>
      { state := ⟨none, none⟩, ret := "",
        effs := [.fetchGet "/user/me", .logErr "Failed to fetch user data",
                 .removeItem "token"] }

/-- The `login` operation (lines 76 to 120), as a function of the login
exchange `lf` and the secondary `/user/me` exchange `mf`.  A rejected login
fetch or a throwing `res.json()` on the ok path lands in the outer catch
(lines 116 to 119): log, return `"unable to login"`.  A non-ok status
returns `data?.message || 'login failed'` (lines 86 to 89).  An ok status
with falsy `data` or falsy `data.token` returns `"no token"` (lines 91
to 93).  Otherwise the token is persisted (line 94), the secondary fetch
sets the user per `meUser` (lines 96 to 112), and the operation navigates
to `/profile` and returns `""` (lines 114 and 115). -/
def login : ClientState → Fetch LoginParse → MeFetch → OpResult
  | st, .err, _ =>
      { state := st, ret := "unable to login",
        effs := [.fetchPost "/login", .logErr "Login error:"] }
  | st, .resp false b, _ =>
      { state := st, ret := jsOr (messageOf b) "login failed",
        effs := [.fetchPost "/login"] }
  | st, .resp true .fail, _ =>
      { state := st, ret := "unable to login",
        effs := [.fetchPost "/login", .logErr "Login error:"] }
  | st, .resp true .nullv, _ =>
      { state := st, ret := "no token", effs := [.fetchPost "/login"] }
  | st, .resp true (.obj tok _), mf =>
      match truthyToken tok with
      | none =>
          { state := st, ret := "no token", effs := [.fetchPost "/login"] }
      | some t =>
          { state := ⟨some t, meUser mf⟩, ret := "",
            effs := [.fetchPost "/login", .setItem "token" t,
                     .fetchGet "/user/me", .nav "/profile"] }

/-- The `logout` operation (lines 62 to 66): remove the token, publish
`null`, navigate to `/`.  Total — no fetch, no failure path. -/
def logout : ClientState → OpResult
  | _ =>
      { state := ⟨none, none⟩, ret := "",
        effs := [.removeItem "token", .nav "/"] }

/-- The `register` operation (lines 129 to 149), as a function of the
registration exchange.  Its body model is the `message` value reachable via
`data?.message` after `res.json().catch(() => ({}))` (line 138): `none`
covers a parse failure, a null body, or a missing field.  A rejected fetch
lands in the catch (lines 145 to 148).  A non-ok status returns
`data?.message || 'registration failed'` (line 140); an ok status navigates
to `/success` and returns `""` (lines 143 and 144).  Neither the token nor
the user cell is touched on any path. -/
def register : ClientState → Fetch (Option String) → OpResult
  | st, .err =>
      { state := st, ret := "unable to register",
        effs := [.fetchPost "/register", .logErr "Register error:"] }
  | st, .resp true _ =>
      { state := st, ret := "",
        effs := [.fetchPost "/register", .nav "/success"] }
  | st, .resp false msg =>
      { state := st, ret := jsOr msg "registration failed",
        effs := [.fetchPost "/register"] }

/-- One session-manager operation together with the oracle values for the
HTTP exchanges it may perform. -/
inductive Op where
  | initSession (me : MeFetch)
  | login (lf : Fetch LoginParse) (mf : MeFetch)
  | logout
  | register (rf : Fetch (Option String))
deriving DecidableEq, Repr

/-- Dispatch one operation against the current client state. -/
def step (st : ClientState) : Op → OpResult
  | .initSession me => initSession st me
  | .login lf mf => login st lf mf
  | .logout => logout st
  | .register rf => register st rf

/-- Whether a `/user/me` exchange validated the token: HTTP success with a
body that parsed. -/
def meSuccess : MeFetch → Bool
  | .resp true (some _) => true
  | _ => false

/-- Whether a `/user/me` exchange failed in any way: transport error,
non-success status, or a body that failed to parse. -/
def meCheckFailed : MeFetch → Bool
  | .err => true
  | .resp false _ => true
  | .resp true none => true
  | .resp true (some _) => false

/-- The token `login` would persist from a parsed login body, if any:
present exactly when the body is an object with a truthy `token` field. -/
def attemptedToken : LoginParse → Option String
  | .obj t _ => truthyToken t
  | _ => none

/-- Whether a parsed ok login body lacks a usable token: a falsy `data`
or an absent `token` field (line 91). -/
def lacksToken : LoginParse → Bool
  | .nullv => true
  | .obj none _ => true
  | _ => false

/-- The outcome of the token-validation check an operation performs from a
given state, if it performs one: `initialize` checks whenever a token is
stored; `login` checks exactly when it reaches the secondary `/user/me`
fetch; `logout` and `register` never check. -/
def checkOf (st : ClientState) : Op → Option Bool
  | .initSession me =>
      match st.token with
      | none => none
      | some _ => some (meSuccess me)
  | .login lf mf =>
      match lf with
      | .resp true b =>
          match attemptedToken b with
          | some _ => some (meSuccess mf)
          | none => none
      | _ => none
  | .logout => none
  | .register _ => none

/-- Fold a new check outcome into the record of the most recent one. -/
def updLC : Option Bool → Option Bool → Option Bool
  | lc, none => lc
  | _, some b => some b

/-- Run a sequence of operations from a state, tracking the outcome of the
most recent token-validation check performed so far. -/
def runTrace : ClientState → Option Bool → List Op → ClientState × Option Bool
  | st, lc, [] => (st, lc)
  | st, lc, op :: ops =>
      runTrace (step st op).state (updLC lc (checkOf st op)) ops

/-- The client state at mount: a possibly stored token and, per
`useState(null)` on line 20, no published user. -/
def initState (tok : Option String) : ClientState := ⟨tok, none⟩

/-! ## Helper lemmas -/

/-- The JS fallback of `v || d` is never the empty string when the default
is not. -/
lemma jsOr_ne_empty (v : Option String) (d : String) (hd : d ≠ "") :
    jsOr v d ≠ "" := by
  cases v with
  | none => exact hd
  | some s =>
    show (if s = "" then d else s) ≠ ""
    split
    · exact hd
    · assumption

/-- A secondary fetch that did not validate the token yields no user. -/
lemma meUser_eq_none_of_not_meSuccess (mf : MeFetch) (h : meSuccess mf = false) :
    meUser mf = none := by
  cases mf with
  | err => rfl
  | resp ok body =>
    cases ok
    · rfl
    · cases body with
      | none => rfl
      | some d => simp [meSuccess] at h

/-- An operation that performs no token-validation check either publishes
an absent user or leaves the user cell untouched. -/
lemma user_of_checkOf_none (st : ClientState) (op : Op)
    (hc : checkOf st op = none) :
    (step st op).state.user = none ∨ (step st op).state.user = st.user := by
  obtain ⟨tok, u⟩ := st
  cases op with
  | initSession me =>
    cases tok with
    | none =>
      cases me with
      | err => exact Or.inl rfl
      | resp ok body => cases ok <;> cases body <;> exact Or.inl rfl
    | some t => simp [checkOf] at hc
  | login lf mf =>
    cases lf with
    | err => exact Or.inr rfl
    | resp ok b =>
      cases ok with
      | false => exact Or.inr rfl
      | true =>
        cases b with
        | fail => exact Or.inr rfl
        | nullv => exact Or.inr rfl
        | obj t m =>
          cases htt : truthyToken t with
          | none => simp [step, login, htt]
          | some s => simp [checkOf, attemptedToken, htt] at hc
  | logout => exact Or.inl rfl
  | register rf =>
    cases rf with
    | err => exact Or.inr rfl
    | resp ok body => cases ok <;> exact Or.inr rfl

/-- An operation whose token-validation check was rejected publishes an
absent user. -/
lemma user_none_of_checkOf_false (st : ClientState) (op : Op)
    (hc : checkOf st op = some false) :
    (step st op).state.user = none := by
  obtain ⟨tok, u⟩ := st
  cases op with
  | initSession me =>
    cases tok with
    | none => simp [checkOf] at hc
    | some t =>
      cases me with
      | err => rfl
      | resp ok body =>
        cases ok with
        | false => rfl
        | true =>
          cases body with
          | none => rfl
          | some d => simp [checkOf, meSuccess] at hc
  | login lf mf =>
    cases lf with
    | err => simp [checkOf] at hc
    | resp ok b =>
      cases ok with
      | false => simp [checkOf] at hc
      | true =>
        cases b with
        | fail => simp [checkOf, attemptedToken] at hc
        | nullv => simp [checkOf, attemptedToken] at hc
        | obj t m =>
          cases htt : truthyToken t with
          | none => simp [checkOf, attemptedToken, htt] at hc
          | some s =>
            have hms : meSuccess mf = false := by
              simpa [checkOf, attemptedToken, htt] using hc
            simp [step, login, htt, meUser_eq_none_of_not_meSuccess mf hms]
  | logout => simp [checkOf] at hc
  | register rf => simp [checkOf] at hc

/-- One step preserves the trace invariant: if the published user is
non-absent afterwards, the most recent check succeeded. -/
lemma step_check_inv (st : ClientState) (lc : Option Bool) (op : Op)
    (h : st.user ≠ none → lc = some true)
    (h2 : (step st op).state.user ≠ none) :
    updLC lc (checkOf st op) = some true := by
  cases hc : checkOf st op with
  | none =>
    rcases user_of_checkOf_none st op hc with h3 | h3
    · exact absurd h3 h2
    · have : st.user ≠ none := by
        intro h4
        exact h2 (h3.trans h4)
      simpa [updLC] using h this
  | some b =>
    cases b with
    | false => exact absurd (user_none_of_checkOf_false st op hc) h2
    | true => rfl

/-- The trace invariant holds after any run that starts in a state
satisfying it. -/
lemma runTrace_inv (ops : List Op) : ∀ (st : ClientState) (lc : Option Bool),
    (st.user ≠ none → lc = some true) →
    ((runTrace st lc ops).1.user ≠ none → (runTrace st lc ops).2 = some true) := by
  induction ops with
  | nil =>
    intro st lc h
    simpa [runTrace] using h
  | cons op ops ih =>
    intro st lc h
    simp only [runTrace]
    exact ih (step st op).state (updLC lc (checkOf st op))
      (fun h2 => step_check_inv st lc op h h2)

/-! ## Claim theorems -/

/-- C1: over every sequence of session-manager operations run from the
mount state, whenever the published user ends non-absent the most recent
token-validation check succeeded; and any single operation whose check was
rejected by the server publishes an absent user, so a rejected token is
never left stored while Session State is non-absent. -/
theorem c1_session_invariant :
    (∀ (tok : Option String) (ops : List Op),
        (runTrace (initState tok) none ops).1.user ≠ none →
        (runTrace (initState tok) none ops).2 = some true)
    ∧ (∀ (st : ClientState) (op : Op),
        checkOf st op = some false → (step st op).state.user = none) := by
  constructor
  · intro tok ops
    exact runTrace_inv ops (initState tok) none (fun hu => absurd rfl hu)
  · exact fun st op hc => user_none_of_checkOf_false st op hc

/-- Witness for C1 at a concrete run: one successful session bootstrap. -/
theorem c1_session_invariant_witness :
    (runTrace (initState (some "t")) none
        [Op.initSession (.resp true (some ⟨some ⟨1⟩⟩))]).2 = some true :=
  c1_session_invariant.1 (some "t")
    [Op.initSession (.resp true (some ⟨some ⟨1⟩⟩))] (by decide)

/-- C2: a login whose endpoint returns ok with a truthy token and whose
who-am-I fetch returns ok with a user record persists the token (the
`setItem` effect precedes the `/user/me` fetch in the trace), publishes
that user, navigates to `/profile` and returns the empty string. -/
theorem c2_login_success (st : ClientState) (t : String) (m : Option String)
    (u : User) (ht : t ≠ "") :
    login st (.resp true (.obj (some t) m)) (.resp true (some ⟨some u⟩)) =
      { state := ⟨some t, some u⟩, ret := "",
        effs := [.fetchPost "/login", .setItem "token" t,
                 .fetchGet "/user/me", .nav "/profile"] } := by
  simp [login, truthyToken, meUser, ht]

/-- Witness for C2 at the concrete exchange of the spec example. -/
theorem c2_login_success_witness :
    login ⟨none, none⟩ (.resp true (.obj (some "abc") none))
        (.resp true (some ⟨some ⟨1⟩⟩)) =
      { state := ⟨some "abc", some ⟨1⟩⟩, ret := "",
        effs := [.fetchPost "/login", .setItem "token" "abc",
                 .fetchGet "/user/me", .nav "/profile"] } :=
  c2_login_success ⟨none, none⟩ "abc" none ⟨1⟩ (by decide)

/-- C3: a bootstrap with a stored token deletes it exactly when the
who-am-I request completes with a non-success status; on any failure of
the check (non-success status, transport error, or parse failure) the
published user is absent and a diagnostic is logged. -/
theorem c3_initSession_token_deletion (st : ClientState) (tok : String)
    (me : MeFetch) (h : st.token = some tok) :
    ((initSession st me).state.token = none ↔ ∃ body, me = .resp false body)
    ∧ (meCheckFailed me = true →
        (initSession st me).state.user = none ∧
        ∃ msg, Eff.logErr msg ∈ (initSession st me).effs) := by
  obtain ⟨t, u⟩ := st
  cases h
  cases me with
  | err =>
    refine ⟨by simp [initSession], fun _ => ⟨rfl, "Error fetching user data:", ?_⟩⟩
    simp [initSession]
  | resp ok body =>
    cases ok with
    | false =>
      refine ⟨by simp [initSession], fun _ => ⟨rfl, "Failed to fetch user data", ?_⟩⟩
      simp [initSession]
    | true =>
      cases body with
      | none =>
        refine ⟨by simp [initSession], fun _ => ⟨rfl, "Error fetching user data:", ?_⟩⟩
        simp [initSession]
      | some d =>
        exact ⟨by simp [initSession], fun hf => by simp [meCheckFailed] at hf⟩

/-- Witness for C3 at a stored token and a 401-style response. -/
theorem c3_initSession_token_deletion_witness :
    (((initSession ⟨some "t", none⟩ (.resp false none)).state.token = none ↔
        ∃ body, (Fetch.resp false none : MeFetch) = .resp false body)
      ∧ (meCheckFailed (.resp false none) = true →
          (initSession ⟨some "t", none⟩ (.resp false none)).state.user = none ∧
          ∃ msg, Eff.logErr msg ∈
            (initSession ⟨some "t", none⟩ (.resp false none)).effs)) :=
  c3_initSession_token_deletion ⟨some "t", none⟩ "t" (.resp false none) rfl

/-- C4: a login failing before the token-persistence step — non-success
status, or ok status with a body lacking a usable token — returns a
non-empty error string (the server message or a fixed fallback, or the
fixed string `no token`), performs no storage write, and leaves the client
state unchanged. -/
theorem c4_login_early_failure (st : ClientState) (mf : MeFetch) :
    (∀ b : LoginParse,
        (login st (.resp false b) mf).state = st ∧
        (login st (.resp false b) mf).effs = [.fetchPost "/login"] ∧
        (login st (.resp false b) mf).ret = jsOr (messageOf b) "login failed" ∧
        (login st (.resp false b) mf).ret ≠ "")
    ∧ (∀ b : LoginParse, lacksToken b = true →
        (login st (.resp true b) mf).state = st ∧
        (login st (.resp true b) mf).effs = [.fetchPost "/login"] ∧
        (login st (.resp true b) mf).ret = "no token") := by
  constructor
  · intro b
    exact ⟨rfl, rfl, rfl, jsOr_ne_empty (messageOf b) "login failed" (by decide)⟩
  · intro b hb
    cases b with
    | fail => simp [lacksToken] at hb
    | nullv => exact ⟨rfl, rfl, rfl⟩
    | obj tk m =>
      cases tk with
      | none => exact ⟨rfl, rfl, rfl⟩
      | some s => simp [lacksToken] at hb

/-- Witness for C4 at the 401-with-message and missing-token examples. -/
theorem c4_login_early_failure_witness :
    ((login ⟨none, none⟩ (.resp false (.obj none (some "bad creds"))) .err).state
        = ⟨none, none⟩ ∧
      (login ⟨none, none⟩ (.resp false (.obj none (some "bad creds"))) .err).effs
        = [.fetchPost "/login"] ∧
      (login ⟨none, none⟩ (.resp false (.obj none (some "bad creds"))) .err).ret
        = jsOr (messageOf (.obj none (some "bad creds"))) "login failed" ∧
      (login ⟨none, none⟩ (.resp false (.obj none (some "bad creds"))) .err).ret
        ≠ "")
    ∧ ((login ⟨none, none⟩ (.resp true (.obj none none)) .err).state
        = ⟨none, none⟩ ∧
      (login ⟨none, none⟩ (.resp true (.obj none none)) .err).effs
        = [.fetchPost "/login"] ∧
      (login ⟨none, none⟩ (.resp true (.obj none none)) .err).ret = "no token") :=
  ⟨(c4_login_early_failure ⟨none, none⟩ .err).1 (.obj none (some "bad creds")),
   (c4_login_early_failure ⟨none, none⟩ .err).2 (.obj none none) rfl⟩

/-- C5: a login that obtained a truthy token but whose secondary who-am-I
fetch fails in any way publishes an absent user (never a stale one), while
still persisting the token, navigating to `/profile` and returning the
empty string. -/
theorem c5_login_secondary_failure (st : ClientState) (t : String)
    (m : Option String) (mf : MeFetch) (ht : t ≠ "")
    (hmf : meCheckFailed mf = true) :
    login st (.resp true (.obj (some t) m)) mf =
      { state := ⟨some t, none⟩, ret := "",
        effs := [.fetchPost "/login", .setItem "token" t,
                 .fetchGet "/user/me", .nav "/profile"] } := by
  have hms : meSuccess mf = false := by
    cases mf with
    | err => rfl
    | resp ok body =>
      cases ok
      · rfl
      · cases body with
        | none => rfl
        | some d => simp [meCheckFailed] at hmf
  simp [login, truthyToken, ht, meUser_eq_none_of_not_meSuccess mf hms]

/-- Witness for C5 at a transport-level failure of the secondary fetch. -/
theorem c5_login_secondary_failure_witness :
    login ⟨none, some ⟨7⟩⟩ (.resp true (.obj (some "abc") none)) .err =
      { state := ⟨some "abc", none⟩, ret := "",
        effs := [.fetchPost "/login", .setItem "token" "abc",
                 .fetchGet "/user/me", .nav "/profile"] } :=
  c5_login_secondary_failure ⟨none, some ⟨7⟩⟩ "abc" none .err (by decide) rfl

/-- C6: a bootstrap with no stored token publishes an absent user and
performs no side effect at all — in particular no network request. -/
theorem c6_initSession_no_token (st : ClientState) (me : MeFetch)
    (h : st.token = none) :
    initSession st me = { state := ⟨none, none⟩, ret := "", effs := [] } := by
  obtain ⟨t, u⟩ := st
  cases h
  cases me with
  | err => rfl
  | resp ok body => cases ok <;> cases body <;> rfl

/-- Witness for C6 at the empty mount state. -/
theorem c6_initSession_no_token_witness :
    initSession ⟨none, some ⟨3⟩⟩ .err =
      { state := ⟨none, none⟩, ret := "", effs := [] } :=
  c6_initSession_no_token ⟨none, some ⟨3⟩⟩ .err rfl

/-- C7: logout, from any prior state, deletes the token, publishes an
absent user, navigates to `/`, and returns normally — it is a total
function with no failure path. -/
theorem c7_logout_unconditional (st : ClientState) :
    logout st = { state := ⟨none, none⟩, ret := "",
                  effs := [.removeItem "token", .nav "/"] } := rfl

/-- C8: register never touches the stored token or the published user; an
ok status yields the empty string and a navigation to `/success`; a
non-success status yields the server message or the fixed fallback, which
at an absent message field is exactly `registration failed`. -/
theorem c8_register_frame (st : ClientState) :
    (∀ rf : Fetch (Option String), (register st rf).state = st)
    ∧ (∀ body : Option String,
        register st (.resp true body) =
          { state := st, ret := "",
            effs := [.fetchPost "/register", .nav "/success"] })
    ∧ (∀ msg : Option String,
        register st (.resp false msg) =
          { state := st, ret := jsOr msg "registration failed",
            effs := [.fetchPost "/register"] })
    ∧ (register st (.resp false none)).ret = "registration failed" := by
  refine ⟨?_, fun _ => rfl, fun _ => rfl, rfl⟩
  intro rf
  cases rf with
  | err => rfl
  | resp ok body => cases ok <;> rfl

/-- C9: a bootstrap whose who-am-I request succeeds but whose body lacks
the `user` field publishes an absent user, keeps the stored token, and
logs nothing — it is not treated as an error. -/
theorem c9_initSession_absent_user_field (st : ClientState) (tok : String)
    (h : st.token = some tok) :
    initSession st (.resp true (some ⟨none⟩)) =
      { state := ⟨some tok, none⟩, ret := "",
        effs := [.fetchGet "/user/me"] } := by
  obtain ⟨t, u⟩ := st
  cases h
  rfl

/-- Witness for C9 at a concrete stored token. -/
theorem c9_initSession_absent_user_field_witness :
    initSession ⟨some "t", none⟩ (.resp true (some ⟨none⟩)) =
      { state := ⟨some "t", none⟩, ret := "",
        effs := [.fetchGet "/user/me"] } :=
  c9_initSession_absent_user_field ⟨some "t", none⟩ "t" rfl

/-- C10: a login whose initial fetch rejects at the transport level, or
whose ok-status body fails to parse, returns the fixed string
`unable to login`, stores nothing, leaves the state unchanged, and
triggers no navigation — the trace holds only the attempted fetch and a
diagnostic. -/
theorem c10_login_transport_parse (st : ClientState) (mf : MeFetch) :
    (login st .err mf =
      { state := st, ret := "unable to login",
        effs := [.fetchPost "/login", .logErr "Login error:"] })
    ∧ (login st (.resp true .fail) mf =
      { state := st, ret := "unable to login",
        effs := [.fetchPost "/login", .logErr "Login error:"] }) :=
  ⟨rfl, rfl⟩

end AuthContext
